import Mathlib

/-!
Shallow embedding of the sia-local-control-ui repository
(src/sia_local_control_ui/application.py and dashboard.py).

Analog/tag values are modelled as exact rationals, digital outputs as
naturals (0/1), and tag reads that may return Python `None` as
`Option` values.  A key of a dict-shaped partial update is modelled
as a three-valued slot (`Entry`): absent, present holding Python
`None`, or present holding a typed value — so `float(None)` raising
`TypeError` inside the merge (swallowed by `update_data`, which then
neither bumps the timestamp nor broadcasts and leaves only a prefix
of the sections applied) and `str(None)` storing the literal string
`"None"` are both represented.
-/

/-- A dynamically typed Python value as accepted by
`DashboardData._to_bool` (dashboard.py lines 54-63): a bool, an
int, a float, a string, or a value of any other type. -/
inductive PyValue where
  | bool (b : Bool)
  | int (n : Int)
  | float (q : Rat)
  | str (s : String)
  | other
deriving Repr, DecidableEq

/-- Embedding of `DashboardData._to_bool` (dashboard.py lines 54-63): a bool passes
through; an int or float maps to `value != 0`; a string maps to
membership of its stripped, lower-cased form in the set
`\x7b"true", "1", "yes", "on"\x7d`; anything else yields the fallback. -/
def to_bool (value : PyValue) (default : Bool) : Bool :=
  match value with
  | .bool b => b
  | .int n => n != 0
  | .float q => q != 0
  | .str s => s.trim.toLower ∈ (["true", "1", "yes", "on"] : List String)
  | .other => default

/-- The authoritative snapshot record `DashboardData` (dashboard.py
lines 16-52), with its `__init__` defaults captured by
`DashboardData.init` below.  `timestamp` abstracts `datetime.now()`
as a natural number supplied by the caller. -/
structure DashboardData where
  target_rate : Rat
  flow_rate : Rat
  pump_state : String
  pump2_target_rate : Rat
  pump2_flow_rate : Rat
  pump2_pump_state : String
  battery_voltage : Rat
  battery_percentage : Rat
  panel_power : Rat
  battery_ah : Rat
  tank_level_mm : Rat
  tank_level_percent : Rat
  skid_flow : Rat
  skid_pressure : Rat
  timestamp : Nat
  system_status : String
  hh_pressure : Bool
  ll_tank_level : Bool
deriving Repr, DecidableEq

/-- The `DashboardData.__init__` defaults (dashboard.py lines 19-52). -/
def DashboardData.init (now : Nat) : DashboardData :=
  { target_rate := 0
    flow_rate := 0
    pump_state := "standby"
    pump2_target_rate := 0
    pump2_flow_rate := 0
    pump2_pump_state := "standby"
    battery_voltage := 0
    battery_percentage := 0
    panel_power := 0
    battery_ah := 0
    tank_level_mm := 0
    tank_level_percent := 0
    skid_flow := 0
    skid_pressure := 0
    timestamp := now
    system_status := "running"
    hh_pressure := false
    ll_tank_level := false }

/-- A dictionary slot as `update_from_dict` sees it: the key may be
absent, present holding Python `None`, or present holding a typed
value. -/
inductive Entry (α : Type) where
  | absent
  | pynone
  | val (a : α)
deriving Repr, DecidableEq

/-- The outcome of `float(d.get(key, stored))` on a slot: an absent
key falls back to the stored float (`float` is the identity on it), a
key present with `None` makes `float(None)` raise `TypeError`
(`Option.none` here), and a present float passes through. -/
def float_field (e : Entry Rat) (cur : Rat) : Option Rat :=
  match e with
  | Entry.absent => Option.some cur
  | Entry.pynone => Option.none
  | Entry.val q => Option.some q

/-- The outcome of `str(d.get(key, stored))` on a slot: an absent key
falls back to the stored string, a key present with `None` is stored
as the literal string `"None"`, and a present string passes
through. -/
def str_field (e : Entry String) (cur : String) : String :=
  match e with
  | Entry.absent => cur
  | Entry.pynone => "None"
  | Entry.val s => s

/-- The non-raising reading of a slot against a stored default; on
the success path of the merge a `pynone` slot is never consulted
through this function. -/
def Entry.getD {α : Type} : Entry α → α → α
  | Entry.absent, dflt => dflt
  | Entry.pynone, dflt => dflt
  | Entry.val a, _ => a

/-- Whether the slot is a key present with Python `None`. -/
def Entry.isPyNone {α : Type} : Entry α → Bool
  | Entry.pynone => true
  | _ => false

/-- The slot a key holds inside an optional section: absent when the
section itself is absent from the partial. -/
def entry_of {β α : Type} (o : Option β) (f : β → Entry α) : Entry α :=
  match o with
  | Option.none => Entry.absent
  | Option.some b => f b

/-- Placing a raw `get_tag` result into a dict (the tick writes the
pump keys unconditionally): the key is always present, holding `None`
when the read returned `None`. -/
def tag_entry {α : Type} : Option α → Entry α
  | Option.none => Entry.pynone
  | Option.some a => Entry.val a

/-- Guarded dict insertion (`if x is not None: d[k] = x`): the key is
absent when the value is `None`. -/
def opt_entry {α : Type} : Option α → Entry α
  | Option.none => Entry.absent
  | Option.some a => Entry.val a

/-- The `"pump"` / `"pump2"` sub-dictionary of a partial update. -/
structure PumpUpdate where
  target_rate : Entry Rat
  flow_rate : Entry Rat
  pump_state : Entry String
deriving Repr, DecidableEq

/-- The `"solar"` sub-dictionary of a partial update. -/
structure SolarUpdate where
  battery_voltage : Entry Rat
  battery_percentage : Entry Rat
  panel_power : Entry Rat
  battery_ah : Entry Rat
deriving Repr, DecidableEq

/-- The `"tank"` sub-dictionary of a partial update. -/
structure TankUpdate where
  tank_level_mm : Entry Rat
  tank_level_percent : Entry Rat
deriving Repr, DecidableEq

/-- The `"skid"` sub-dictionary of a partial update. -/
structure SkidUpdate where
  skid_flow : Entry Rat
  skid_pressure : Entry Rat
deriving Repr, DecidableEq

/-- The `"system"` sub-dictionary of a partial update. -/
structure SystemUpdate where
  status : Entry String
deriving Repr, DecidableEq

/-- The `"faults"` sub-dictionary of a partial update; the values are
arbitrary Python values that `update_from_dict` coerces with
`_to_bool`. -/
structure FaultsUpdate where
  hh_pressure : Option PyValue
  ll_tank_level : Option PyValue
deriving Repr, DecidableEq

/-- A dict-shaped partial update as passed to
`SiaDashboard.update_data(**kwargs)`.  The `"selector"` and `"valve"`
sections are produced by the application tick but have no handler in
`update_from_dict` and are therefore ignored by the merge. -/
structure UpdateData where
  selector : Option Nat
  pump : Option PumpUpdate
  pump2 : Option PumpUpdate
  valve : Option Nat
  faults : Option FaultsUpdate
  solar : Option SolarUpdate
  tank : Option TankUpdate
  skid : Option SkidUpdate
  system : Option SystemUpdate
deriving Repr, DecidableEq

/-- The empty partial update (a `kwargs` dict with no keys). -/
def UpdateData.empty : UpdateData :=
  { selector := Option.none
    pump := Option.none
    pump2 := Option.none
    valve := Option.none
    faults := Option.none
    solar := Option.none
    tank := Option.none
    skid := Option.none
    system := Option.none }

/-- Python truthiness of the `kwargs` dict tested by
`SiaDashboard.update_data` (`if kwargs:`): some key is present. -/
def UpdateData.nonempty (u : UpdateData) : Bool :=
  u.selector.isSome || u.pump.isSome || u.pump2.isSome || u.valve.isSome
    || u.faults.isSome || u.solar.isSome || u.tank.isSome || u.skid.isSome
    || u.system.isSome

/-- No numeric key of this pump section is present with `None`, so no
`float(...)` call in its block raises. -/
def PumpUpdate.float_ok (p : PumpUpdate) : Bool :=
  !p.target_rate.isPyNone && !p.flow_rate.isPyNone

/-- No numeric key of this solar section is present with `None`. -/
def SolarUpdate.float_ok (s : SolarUpdate) : Bool :=
  !s.battery_voltage.isPyNone && !s.battery_percentage.isPyNone
    && !s.panel_power.isPyNone && !s.battery_ah.isPyNone

/-- No numeric key of this tank section is present with `None`. -/
def TankUpdate.float_ok (t : TankUpdate) : Bool :=
  !t.tank_level_mm.isPyNone && !t.tank_level_percent.isPyNone

/-- No numeric key of this skid section is present with `None`. -/
def SkidUpdate.float_ok (k : SkidUpdate) : Bool :=
  !k.skid_flow.isPyNone && !k.skid_pressure.isPyNone

/-- Lifting a per-section check over an optional section. -/
def section_ok {β : Type} (o : Option β) (f : β → Bool) : Bool :=
  match o with
  | Option.none => true
  | Option.some b => f b

/-- No numeric key anywhere in the partial is present with `None`:
exactly the condition under which every `float(...)` call of
`update_from_dict` succeeds and the merge runs to completion. -/
def UpdateData.float_ok (u : UpdateData) : Bool :=
  section_ok u.pump PumpUpdate.float_ok
    && section_ok u.pump2 PumpUpdate.float_ok
    && section_ok u.solar SolarUpdate.float_ok
    && section_ok u.tank TankUpdate.float_ok
    && section_ok u.skid SkidUpdate.float_ok

/-- The `if "pump" in data:` block of `update_from_dict`
(dashboard.py lines 105-109).  Assignments run in source order; a
`float(None)` `TypeError` stops the block, the `Bool` turning false,
with the assignments made before the raise kept. -/
def apply_pump (d : DashboardData) : Option PumpUpdate → DashboardData × Bool
  | Option.none => (d, true)
  | Option.some pump =>
    match float_field pump.target_rate d.target_rate with
    | Option.none => (d, false)
    | Option.some tr =>
      let d1 := { d with target_rate := tr }
      match float_field pump.flow_rate d1.flow_rate with
      | Option.none => (d1, false)
      | Option.some fr =>
        let d2 := { d1 with flow_rate := fr }
        ({ d2 with pump_state := str_field pump.pump_state d2.pump_state },
          true)

/-- The `if "pump2" in data:` block of `update_from_dict`
(dashboard.py lines 111-115), with the same raise behaviour as the
pump block. -/
def apply_pump2 (d : DashboardData) : Option PumpUpdate → DashboardData × Bool
  | Option.none => (d, true)
  | Option.some pump2 =>
    match float_field pump2.target_rate d.pump2_target_rate with
    | Option.none => (d, false)
    | Option.some tr =>
      let d1 := { d with pump2_target_rate := tr }
      match float_field pump2.flow_rate d1.pump2_flow_rate with
      | Option.none => (d1, false)
      | Option.some fr =>
        let d2 := { d1 with pump2_flow_rate := fr }
        ({ d2 with
            pump2_pump_state := str_field pump2.pump_state d2.pump2_pump_state },
          true)

/-- The `if "solar" in data:` block of `update_from_dict`
(dashboard.py lines 117-122). -/
def apply_solar (d : DashboardData) : Option SolarUpdate → DashboardData × Bool
  | Option.none => (d, true)
  | Option.some solar =>
    match float_field solar.battery_voltage d.battery_voltage with
    | Option.none => (d, false)
    | Option.some bv =>
      let d1 := { d with battery_voltage := bv }
      match float_field solar.battery_percentage d1.battery_percentage with
      | Option.none => (d1, false)
      | Option.some bp =>
        let d2 := { d1 with battery_percentage := bp }
        match float_field solar.panel_power d2.panel_power with
        | Option.none => (d2, false)
        | Option.some pp =>
          let d3 := { d2 with panel_power := pp }
          match float_field solar.battery_ah d3.battery_ah with
          | Option.none => (d3, false)
          | Option.some ba => ({ d3 with battery_ah := ba }, true)

/-- The `if "tank" in data:` block of `update_from_dict`
(dashboard.py lines 124-127). -/
def apply_tank (d : DashboardData) : Option TankUpdate → DashboardData × Bool
  | Option.none => (d, true)
  | Option.some tank =>
    match float_field tank.tank_level_mm d.tank_level_mm with
    | Option.none => (d, false)
    | Option.some lm =>
      let d1 := { d with tank_level_mm := lm }
      match float_field tank.tank_level_percent d1.tank_level_percent with
      | Option.none => (d1, false)
      | Option.some lp => ({ d1 with tank_level_percent := lp }, true)

/-- The `if "skid" in data:` block of `update_from_dict`
(dashboard.py lines 129-132). -/
def apply_skid (d : DashboardData) : Option SkidUpdate → DashboardData × Bool
  | Option.none => (d, true)
  | Option.some skid =>
    match float_field skid.skid_flow d.skid_flow with
    | Option.none => (d, false)
    | Option.some sf =>
      let d1 := { d with skid_flow := sf }
      match float_field skid.skid_pressure d1.skid_pressure with
      | Option.none => (d1, false)
      | Option.some sp => ({ d1 with skid_pressure := sp }, true)

/-- The `if "system" in data:` block of `update_from_dict`
(dashboard.py lines 134-136): `str(...)` never raises. -/
def apply_system (d : DashboardData) : Option SystemUpdate → DashboardData
  | Option.none => d
  | Option.some system =>
    { d with system_status := str_field system.status d.system_status }

/-- The `if "faults" in data ...:` block of `update_from_dict`
(dashboard.py lines 138-143): each present fault key is coerced by
`_to_bool` with the currently stored flag as the fallback. -/
def apply_faults (d : DashboardData) : Option FaultsUpdate → DashboardData
  | Option.none => d
  | Option.some faults =>
    let d1 :=
      match faults.hh_pressure with
      | Option.none => d
      | Option.some v => { d with hh_pressure := to_bool v d.hh_pressure }
    match faults.ll_tank_level with
    | Option.none => d1
    | Option.some v => { d1 with ll_tank_level := to_bool v d1.ll_tank_level }

/-- Embedding of `DashboardData.update_from_dict` (dashboard.py lines 102-145):
apply each present section in source order and stamp the record with
the current time.  The `Bool` is true when the method returned
normally; it is false when a `float(None)` call raised `TypeError`,
in which case the record holds the assignments made before the raise
— later sections (including the faults block) and the timestamp
refresh never run. -/
def update_from_dict (d : DashboardData) (data : UpdateData) (now : Nat) :
    DashboardData × Bool :=
  match apply_pump d data.pump with
  | (d1, false) => (d1, false)
  | (d1, true) =>
    match apply_pump2 d1 data.pump2 with
    | (d2, false) => (d2, false)
    | (d2, true) =>
      match apply_solar d2 data.solar with
      | (d3, false) => (d3, false)
      | (d3, true) =>
        match apply_tank d3 data.tank with
        | (d4, false) => (d4, false)
        | (d4, true) =>
          match apply_skid d4 data.skid with
          | (d5, false) => (d5, false)
          | (d5, true) =>
            let d6 := apply_system d5 data.system
            let d7 := apply_faults d6 data.faults
            ({ d7 with timestamp := now }, true)

/-- The startup selector derivation in `setup_selector`
(application.py lines 96-103): strict `< 5` comparisons on both
branches. -/
def setup_selector_state (p1_sel p2_sel : Rat) : Nat :=
  if p1_sel < 5 ∧ p2_sel < 5 then 3
  else if p1_sel < 5 ∧ p2_sel ≥ 5 then 2
  else if p1_sel ≥ 5 ∧ p2_sel < 5 then 1
  else 0

/-- The per-tick selector derivation in `update_dashboard_data`
(application.py lines 162-169): the first branch uses `<= 5` on both
readings. -/
def tick_selector_state (p1_slt_state p2_slt_state : Rat) : Nat :=
  if p1_slt_state ≤ 5 ∧ p2_slt_state ≤ 5 then 3
  else if p1_slt_state < 5 ∧ p2_slt_state ≥ 5 then 2
  else if p1_slt_state ≥ 5 ∧ p2_slt_state < 5 then 1
  else 0

/-- One solar controller's four tag reads for one tick; `Option.none`
is a `get_tag` returning Python `None`. -/
structure SolarReadings where
  b_voltage : Option Rat
  b_percent : Option Rat
  panel_power : Option Rat
  remaining_ah : Option Rat
deriving Repr, DecidableEq

/-- The four solar aggregation variables of `update_dashboard_data`
after the collection block (application.py lines 220-256); a
variable holds `None` when its metric kept no value. -/
structure SolarVars where
  battery_voltage : Option Rat
  battery_percentage : Option Rat
  panel_power : Option Rat
  battery_ah : Option Rat
deriving Repr, DecidableEq

/-- The solar collection-and-aggregation block of
`update_dashboard_data` (application.py lines 219-256).  The
`panel_power` and `battery_ah` Python variables double as loop
temporaries, so when their collected list is empty they are left
holding the last read (which is `None` whenever the list is empty);
this aliasing is modelled by the `foldl` fallbacks.  Every non-empty
list — including `battery_ah_values` — is reduced by
`sum(...) / len(...)`. -/
def solar_aggregate (has_solar : Bool) (ctrls : List SolarReadings) :
    SolarVars :=
  if has_solar then
    let battery_voltages := ctrls.filterMap SolarReadings.b_voltage
    let battery_percentages := ctrls.filterMap SolarReadings.b_percent
    let panel_power_values := ctrls.filterMap SolarReadings.panel_power
    let battery_ah_values := ctrls.filterMap SolarReadings.remaining_ah
    let panel_power_last :=
      ctrls.foldl (fun _ c => c.panel_power) Option.none
    let battery_ah_last :=
      ctrls.foldl (fun _ c => c.remaining_ah) Option.none
    { battery_voltage :=
        if battery_voltages.length ≠ 0 then
          Option.some (battery_voltages.sum / battery_voltages.length)
        else Option.none
      battery_percentage :=
        if battery_percentages.length ≠ 0 then
          Option.some (battery_percentages.sum / battery_percentages.length)
        else Option.none
      panel_power :=
        if panel_power_values.length ≠ 0 then
          Option.some (panel_power_values.sum / panel_power_values.length)
        else panel_power_last
      battery_ah :=
        if battery_ah_values.length ≠ 0 then
          Option.some (battery_ah_values.sum / battery_ah_values.length)
        else battery_ah_last }
  else
    { battery_voltage := Option.none
      battery_percentage := Option.none
      panel_power := Option.none
      battery_ah := Option.none }

/-- Python truthiness of the `solar_data` dict (`if solar_data:`,
application.py line 268): the dict is empty when no variable was
non-`None`. -/
def SolarVars.isEmptyDict (s : SolarVars) : Bool :=
  s.battery_voltage.isNone && s.battery_percentage.isNone
    && s.panel_power.isNone && s.battery_ah.isNone

/-- The guarded construction of the `solar_data` dict (application.py
lines 258-266): each non-`None` variable is inserted under its key;
`None` variables are omitted, so a present solar key never holds
`None`. -/
def solar_data_dict (v : SolarVars) : SolarUpdate :=
  { battery_voltage := opt_entry v.battery_voltage
    battery_percentage := opt_entry v.battery_percentage
    panel_power := opt_entry v.panel_power
    battery_ah := opt_entry v.battery_ah }

/-- Application configuration facts read from `self.config`
(application.py): whether a second pump controller is configured
(`len(self.config.pump_controllers.elements) > 1`) and the Python
truthiness of the optional solar / tank / flow / pressure apps. -/
structure AppCfg where
  has_pump2 : Bool
  has_solar : Bool
  has_tank : Bool
  has_flow : Bool
  has_pressure : Bool
deriving Repr, DecidableEq

/-- The application instance attributes that the tick and the button
callbacks read and write (application.py). -/
structure AppState where
  selector_state : Nat
  valve_control_state : Nat
  pump_1_state : Option String
  pump_2_state : Option String
deriving Repr, DecidableEq

/-- All tag / pin reads performed by one call of
`update_dashboard_data` (application.py lines 154-309).  `Option.none`
models a read that returned Python `None`. -/
structure TickInputs where
  p1_slt_state : Rat
  p2_slt_state : Rat
  p1_target_rate : Option Rat
  p1_flow_rate : Option Rat
  p1_state_string : Option String
  p2_target_rate : Option Rat
  p2_flow_rate : Option Rat
  p2_state_string : Option String
  valv_ctrl_state : Option Nat
  p1_app_state : Option String
  p2_app_state : Option String
  solar_readings : List SolarReadings
  level_reading : Option Rat
  level_filled_percentage : Option Rat
  flow_value : Option Rat
  pressure_value : Option Rat
deriving Repr, DecidableEq

/-- Embedding of `update_dashboard_data` (application.py lines 154-309): recompute
the selector state, copy pump telemetry through (the pump keys are
written unconditionally, so a failed tag read leaves a key holding
`None`), confirm the valve output (retaining the last confirmed value
on a `None` read), derive the fault flags from the two `AppState` tag
strings, aggregate the solar pool, convert the tank level to
millimetres, and assemble the partial update handed to
`SiaDashboard.update_data`. -/
def update_dashboard_data (cfg : AppCfg) (st : AppState)
    (inp : TickInputs) : AppState × UpdateData :=
  let selector_state := tick_selector_state inp.p1_slt_state inp.p2_slt_state
  let valve_control_state := inp.valv_ctrl_state.getD st.valve_control_state
  let pump_1_state := inp.p1_app_state
  let pump_2_state := inp.p2_app_state
  let ll_tank_level :=
    decide (pump_1_state = Option.some "tank_level_low_low_level"
      ∨ pump_2_state = Option.some "tank_level_low_low_level")
  let hh_pressure :=
    decide (pump_1_state = Option.some "pressure_high_high_level"
      ∨ pump_2_state = Option.some "pressure_high_high_level")
  let solar_data := solar_aggregate cfg.has_solar inp.solar_readings
  let tank_level_mm := if cfg.has_tank then inp.level_reading else Option.none
  let tank_level_percent :=
    if cfg.has_tank then inp.level_filled_percentage else Option.none
  let skid_flow := if cfg.has_flow then inp.flow_value else Option.none
  let skid_pressure :=
    if cfg.has_pressure then inp.pressure_value else Option.none
  let upd : UpdateData :=
    { selector := Option.some selector_state
      pump := Option.some
        { target_rate := tag_entry inp.p1_target_rate
          flow_rate := tag_entry inp.p1_flow_rate
          pump_state := tag_entry inp.p1_state_string }
      pump2 :=
        if cfg.has_pump2 then
          Option.some
            { target_rate := tag_entry inp.p2_target_rate
              flow_rate := tag_entry inp.p2_flow_rate
              pump_state := tag_entry inp.p2_state_string }
        else Option.none
      valve := Option.some valve_control_state
      faults := Option.some
        { hh_pressure := Option.some (PyValue.bool hh_pressure)
          ll_tank_level := Option.some (PyValue.bool ll_tank_level) }
      solar :=
        if solar_data.isEmptyDict then Option.none
        else Option.some (solar_data_dict solar_data)
      tank :=
        if tank_level_mm.isNone && tank_level_percent.isNone then Option.none
        else Option.some
          { tank_level_mm := opt_entry (tank_level_mm.map (fun v => v * 1000))
            tank_level_percent := opt_entry tank_level_percent }
      skid :=
        if skid_flow.isNone && skid_pressure.isNone then Option.none
        else Option.some
          { skid_flow := opt_entry skid_flow
            skid_pressure := opt_entry skid_pressure }
      system := Option.none }
  ({ selector_state := selector_state
     valve_control_state := valve_control_state
     pump_1_state := pump_1_state
     pump_2_state := pump_2_state }, upd)

/-- The externally observable effect of a button-edge callback. -/
inductive EdgeAction where
  | write (v : Nat)
  | popup
  | nothing
deriving Repr, DecidableEq

/-- Embedding of `start_btn_callback` (application.py lines 60-70): when the
selector state is `3`, either write `0` to the valve output or — when
a peer `AppState` tag reads `"calibration"` — request the advisory
popup; otherwise do nothing. -/
def start_btn_callback (selector_state : Nat)
    (p1_state p2_state : Option String) : EdgeAction :=
  if selector_state = 3 then
    if ¬(p1_state = Option.some "calibration"
        ∨ p2_state = Option.some "calibration") then
      EdgeAction.write 0
    else EdgeAction.popup
  else EdgeAction.nothing

/-- Embedding of `stop_btn_callback` (application.py lines 72-82): as
`start_btn_callback` but writing `1` (close) to the valve output. -/
def stop_btn_callback (selector_state : Nat)
    (p1_state p2_state : Option String) : EdgeAction :=
  if selector_state = 3 then
    if ¬(p1_state = Option.some "calibration"
        ∨ p2_state = Option.some "calibration") then
      EdgeAction.write 1
    else EdgeAction.popup
  else EdgeAction.nothing

/-- Applying a button-edge action to the application state and the
physical valve output: `set_do` changes the physical pin and the
callback bodies assign no application attribute, so `AppState` passes
through unchanged in every case. -/
def apply_edge_action (st : AppState) (phys_do : Nat) :
    EdgeAction → AppState × Nat
  | EdgeAction.write v => (st, v)
  | EdgeAction.popup => (st, phys_do)
  | EdgeAction.nothing => (st, phys_do)

/-- The `SiaDashboard` state: the single `DashboardData` container and the
set of connected client ids (dashboard.py lines 166-169). -/
structure DashState where
  data : DashboardData
  connected_clients : List Nat
deriving Repr, DecidableEq

/-- Embedding of `SiaDashboard.broadcast_update` (dashboard.py lines 236-239):
when any client is connected, emit the full serialized snapshot to
every connected client. -/
def broadcast_update (s : DashState) : List (Nat × DashboardData) :=
  if s.connected_clients.isEmpty then []
  else s.connected_clients.map (fun c => (c, s.data))

/-- Embedding of `SiaDashboard.update_data` (dashboard.py lines 241-250): when the
`kwargs` dict is non-empty, merge it into the container with
`update_from_dict` and broadcast the result.  An exception escaping
`update_from_dict` is caught and only logged: the container keeps the
partial mutation but nothing is broadcast. -/
def update_data (s : DashState) (kwargs : UpdateData) (now : Nat) :
    DashState × List (Nat × DashboardData) :=
  if kwargs.nonempty then
    match update_from_dict s.data kwargs now with
    | (d2, true) =>
      let s2 : DashState := { s with data := d2 }
      (s2, broadcast_update s2)
    | (d2, false) => ({ s with data := d2 }, [])
  else (s, [])

/-- The inbound events the dashboard serves (dashboard.py lines
196-250 and 264-278): socket connect / disconnect, an explicit data
request, the `set_pump_state` socket handler (its payload is the
optional `"state"` key of the received dict), a merge through
`update_data`, and the background heartbeat iteration. -/
inductive Event where
  | connect (sid : Nat)
  | disconnect (sid : Nat)
  | request_data (sid : Nat)
  | set_pump_state (payload : Option String)
  | merge (kwargs : UpdateData)
  | heartbeat
deriving Repr, DecidableEq

/-- One inbound event step of `SiaDashboard`, returning the new state
and the list of `data_update` emissions `(client, full snapshot)`.
`connect` registers the client and replays the current snapshot to it;
`disconnect` discards it; `request_data` replays the snapshot;
`set_pump_state` writes `pump_state` and `timestamp` directly on the
container and broadcasts; `merge` runs `update_data`; the heartbeat
iteration writes `timestamp` directly (its emission carries no
snapshot data). -/
def handle_event (s : DashState) (e : Event) (now : Nat) :
    DashState × List (Nat × DashboardData) :=
  match e with
  | Event.connect sid =>
    let s2 : DashState :=
      { s with connected_clients :=
          if sid ∈ s.connected_clients then s.connected_clients
          else sid :: s.connected_clients }
    (s2, [(sid, s2.data)])
  | Event.disconnect sid =>
    ({ s with connected_clients := s.connected_clients.erase sid }, [])
  | Event.request_data sid => (s, [(sid, s.data)])
  | Event.set_pump_state payload =>
    match payload with
    | Option.none => (s, [])
    | Option.some st =>
      let s2 : DashState :=
        { s with data := { s.data with pump_state := st, timestamp := now } }
      (s2, broadcast_update s2)
  | Event.merge kwargs => update_data s kwargs now
  | Event.heartbeat =>
    ({ s with data := { s.data with timestamp := now } }, [])

/-- The step `apply_pump` completes without raising when neither of
its numeric keys is present with `None`, writing exactly the three
pump-1 fields. -/
theorem apply_pump_ok_eq (d : DashboardData) (o : Option PumpUpdate)
    (h : section_ok o PumpUpdate.float_ok = true) :
    apply_pump d o =
      ({ d with
          target_rate := (entry_of o PumpUpdate.target_rate).getD d.target_rate
          flow_rate := (entry_of o PumpUpdate.flow_rate).getD d.flow_rate
          pump_state := str_field (entry_of o PumpUpdate.pump_state)
            d.pump_state }, true) := by
  rcases o with _ | ⟨t, f, ps⟩
  · rfl
  · cases t <;> cases f <;>
      simp_all [apply_pump, float_field, entry_of, Entry.getD, str_field,
        section_ok, PumpUpdate.float_ok, Entry.isPyNone]

/-- The step `apply_pump2` completes without raising when neither of
its numeric keys is present with `None`, writing exactly the three
pump-2 fields. -/
theorem apply_pump2_ok_eq (d : DashboardData) (o : Option PumpUpdate)
    (h : section_ok o PumpUpdate.float_ok = true) :
    apply_pump2 d o =
      ({ d with
          pump2_target_rate := (entry_of o PumpUpdate.target_rate).getD
            d.pump2_target_rate
          pump2_flow_rate := (entry_of o PumpUpdate.flow_rate).getD
            d.pump2_flow_rate
          pump2_pump_state := str_field (entry_of o PumpUpdate.pump_state)
            d.pump2_pump_state }, true) := by
  rcases o with _ | ⟨t, f, ps⟩
  · rfl
  · cases t <;> cases f <;>
      simp_all [apply_pump2, float_field, entry_of, Entry.getD, str_field,
        section_ok, PumpUpdate.float_ok, Entry.isPyNone]

/-- The step `apply_solar` completes without raising when none of its
four keys is present with `None`, writing exactly the four solar
fields. -/
theorem apply_solar_ok_eq (d : DashboardData) (o : Option SolarUpdate)
    (h : section_ok o SolarUpdate.float_ok = true) :
    apply_solar d o =
      ({ d with
          battery_voltage := (entry_of o SolarUpdate.battery_voltage).getD
            d.battery_voltage
          battery_percentage := (entry_of o SolarUpdate.battery_percentage).getD
            d.battery_percentage
          panel_power := (entry_of o SolarUpdate.panel_power).getD d.panel_power
          battery_ah := (entry_of o SolarUpdate.battery_ah).getD
            d.battery_ah }, true) := by
  rcases o with _ | ⟨a, b, c, e⟩
  · rfl
  · cases a <;> cases b <;> cases c <;> cases e <;>
      simp_all [apply_solar, float_field, entry_of, Entry.getD,
        section_ok, SolarUpdate.float_ok, Entry.isPyNone]

/-- The step `apply_tank` completes without raising when neither of
its keys is present with `None`, writing exactly the two tank
fields. -/
theorem apply_tank_ok_eq (d : DashboardData) (o : Option TankUpdate)
    (h : section_ok o TankUpdate.float_ok = true) :
    apply_tank d o =
      ({ d with
          tank_level_mm := (entry_of o TankUpdate.tank_level_mm).getD
            d.tank_level_mm
          tank_level_percent := (entry_of o TankUpdate.tank_level_percent).getD
            d.tank_level_percent }, true) := by
  rcases o with _ | ⟨a, b⟩
  · rfl
  · cases a <;> cases b <;>
      simp_all [apply_tank, float_field, entry_of, Entry.getD,
        section_ok, TankUpdate.float_ok, Entry.isPyNone]

/-- The step `apply_skid` completes without raising when neither of
its keys is present with `None`, writing exactly the two skid
fields. -/
theorem apply_skid_ok_eq (d : DashboardData) (o : Option SkidUpdate)
    (h : section_ok o SkidUpdate.float_ok = true) :
    apply_skid d o =
      ({ d with
          skid_flow := (entry_of o SkidUpdate.skid_flow).getD d.skid_flow
          skid_pressure := (entry_of o SkidUpdate.skid_pressure).getD
            d.skid_pressure }, true) := by
  rcases o with _ | ⟨a, b⟩
  · rfl
  · cases a <;> cases b <;>
      simp_all [apply_skid, float_field, entry_of, Entry.getD,
        section_ok, SkidUpdate.float_ok, Entry.isPyNone]

/-- The step `apply_system` never raises and only writes
`system_status`. -/
theorem apply_system_eq (d : DashboardData) (o : Option SystemUpdate) :
    apply_system d o =
      { d with
        system_status := str_field (entry_of o SystemUpdate.status)
          d.system_status } := by
  cases o <;> rfl

/-- The step `apply_pump` never touches the timestamp or the fault
flags, whether or not it raises. -/
theorem apply_pump_preserves (d : DashboardData) (o : Option PumpUpdate) :
    (apply_pump d o).1.timestamp = d.timestamp
      ∧ (apply_pump d o).1.hh_pressure = d.hh_pressure
      ∧ (apply_pump d o).1.ll_tank_level = d.ll_tank_level := by
  rcases o with _ | ⟨t, f, ps⟩
  · exact ⟨rfl, rfl, rfl⟩
  · cases t <;> cases f <;> exact ⟨rfl, rfl, rfl⟩

/-- The step `apply_pump2` never touches the timestamp or the fault
flags. -/
theorem apply_pump2_preserves (d : DashboardData) (o : Option PumpUpdate) :
    (apply_pump2 d o).1.timestamp = d.timestamp
      ∧ (apply_pump2 d o).1.hh_pressure = d.hh_pressure
      ∧ (apply_pump2 d o).1.ll_tank_level = d.ll_tank_level := by
  rcases o with _ | ⟨t, f, ps⟩
  · exact ⟨rfl, rfl, rfl⟩
  · cases t <;> cases f <;> exact ⟨rfl, rfl, rfl⟩

/-- The step `apply_solar` never touches the timestamp or the fault
flags. -/
theorem apply_solar_preserves (d : DashboardData) (o : Option SolarUpdate) :
    (apply_solar d o).1.timestamp = d.timestamp
      ∧ (apply_solar d o).1.hh_pressure = d.hh_pressure
      ∧ (apply_solar d o).1.ll_tank_level = d.ll_tank_level := by
  rcases o with _ | ⟨a, b, c, e⟩
  · exact ⟨rfl, rfl, rfl⟩
  · cases a <;> cases b <;> cases c <;> cases e <;> exact ⟨rfl, rfl, rfl⟩

/-- The step `apply_tank` never touches the timestamp or the fault
flags. -/
theorem apply_tank_preserves (d : DashboardData) (o : Option TankUpdate) :
    (apply_tank d o).1.timestamp = d.timestamp
      ∧ (apply_tank d o).1.hh_pressure = d.hh_pressure
      ∧ (apply_tank d o).1.ll_tank_level = d.ll_tank_level := by
  rcases o with _ | ⟨a, b⟩
  · exact ⟨rfl, rfl, rfl⟩
  · cases a <;> cases b <;> exact ⟨rfl, rfl, rfl⟩

/-- The step `apply_skid` never touches the timestamp or the fault
flags. -/
theorem apply_skid_preserves (d : DashboardData) (o : Option SkidUpdate) :
    (apply_skid d o).1.timestamp = d.timestamp
      ∧ (apply_skid d o).1.hh_pressure = d.hh_pressure
      ∧ (apply_skid d o).1.ll_tank_level = d.ll_tank_level := by
  rcases o with _ | ⟨a, b⟩
  · exact ⟨rfl, rfl, rfl⟩
  · cases a <;> cases b <;> exact ⟨rfl, rfl, rfl⟩

/-- The step `apply_faults` only writes the two fault flags, coercing each
present value with `_to_bool` against the previously stored flag. -/
theorem apply_faults_eq (d : DashboardData) (o : Option FaultsUpdate) :
    apply_faults d o =
      { d with
        hh_pressure := (o.bind FaultsUpdate.hh_pressure).elim d.hh_pressure
          (fun v => to_bool v d.hh_pressure)
        ll_tank_level := (o.bind FaultsUpdate.ll_tank_level).elim d.ll_tank_level
          (fun v => to_bool v d.ll_tank_level) } := by
  rcases o with _ | ⟨hh, ll⟩
  · rfl
  · rcases hh with _ | v <;> rcases ll with _ | w <;> rfl

/-- Field-by-field characterization of a merge in which no `float`
call raises: every field is either taken from the partial when its
key is present there (a present-`None` string key becoming the
literal `"None"`) or kept from the previous record, `timestamp` is
refreshed, and the method returns normally. -/
theorem update_from_dict_ok_eq (d : DashboardData) (data : UpdateData)
    (now : Nat) (h : data.float_ok = true) :
    update_from_dict d data now =
      ({ target_rate := (entry_of data.pump PumpUpdate.target_rate).getD
            d.target_rate
         flow_rate := (entry_of data.pump PumpUpdate.flow_rate).getD d.flow_rate
         pump_state := str_field (entry_of data.pump PumpUpdate.pump_state)
           d.pump_state
         pump2_target_rate := (entry_of data.pump2 PumpUpdate.target_rate).getD
           d.pump2_target_rate
         pump2_flow_rate := (entry_of data.pump2 PumpUpdate.flow_rate).getD
           d.pump2_flow_rate
         pump2_pump_state := str_field (entry_of data.pump2 PumpUpdate.pump_state)
           d.pump2_pump_state
         battery_voltage := (entry_of data.solar SolarUpdate.battery_voltage).getD
           d.battery_voltage
         battery_percentage :=
           (entry_of data.solar SolarUpdate.battery_percentage).getD
             d.battery_percentage
         panel_power := (entry_of data.solar SolarUpdate.panel_power).getD
           d.panel_power
         battery_ah := (entry_of data.solar SolarUpdate.battery_ah).getD
           d.battery_ah
         tank_level_mm := (entry_of data.tank TankUpdate.tank_level_mm).getD
           d.tank_level_mm
         tank_level_percent :=
           (entry_of data.tank TankUpdate.tank_level_percent).getD
             d.tank_level_percent
         skid_flow := (entry_of data.skid SkidUpdate.skid_flow).getD d.skid_flow
         skid_pressure := (entry_of data.skid SkidUpdate.skid_pressure).getD
           d.skid_pressure
         timestamp := now
         system_status := str_field (entry_of data.system SystemUpdate.status)
           d.system_status
         hh_pressure := (data.faults.bind FaultsUpdate.hh_pressure).elim
           d.hh_pressure (fun v => to_bool v d.hh_pressure)
         ll_tank_level := (data.faults.bind FaultsUpdate.ll_tank_level).elim
           d.ll_tank_level (fun v => to_bool v d.ll_tank_level) }, true) := by
  simp only [UpdateData.float_ok, Bool.and_eq_true] at h
  obtain ⟨⟨⟨⟨h1, h2⟩, h3⟩, h4⟩, h5⟩ := h
  have e1 := fun dd => apply_pump_ok_eq dd data.pump h1
  have e2 := fun dd => apply_pump2_ok_eq dd data.pump2 h2
  have e3 := fun dd => apply_solar_ok_eq dd data.solar h3
  have e4 := fun dd => apply_tank_ok_eq dd data.tank h4
  have e5 := fun dd => apply_skid_ok_eq dd data.skid h5
  simp only [update_from_dict, e1, e2, e3, e4, e5, apply_system_eq,
    apply_faults_eq]

/-- A merge aborted by a `float(None)` `TypeError` never reaches the
timestamp refresh or the faults block, so the partially mutated
record keeps the previous timestamp and both fault flags. -/
theorem update_from_dict_fail_preserves (d : DashboardData)
    (data : UpdateData) (now : Nat)
    (h : (update_from_dict d data now).2 = false) :
    (update_from_dict d data now).1.timestamp = d.timestamp
      ∧ (update_from_dict d data now).1.hh_pressure = d.hh_pressure
      ∧ (update_from_dict d data now).1.ll_tank_level = d.ll_tank_level := by
  have p1 := apply_pump_preserves d data.pump
  rcases h1 : apply_pump d data.pump with ⟨d1, b1⟩
  rw [h1] at p1
  cases b1
  · simp only [update_from_dict, h1] at h ⊢
    exact p1
  · have p2 := apply_pump2_preserves d1 data.pump2
    rcases h2 : apply_pump2 d1 data.pump2 with ⟨d2, b2⟩
    rw [h2] at p2
    cases b2
    · simp only [update_from_dict, h1, h2] at h ⊢
      exact ⟨p2.1.trans p1.1, p2.2.1.trans p1.2.1, p2.2.2.trans p1.2.2⟩
    · have p3 := apply_solar_preserves d2 data.solar
      rcases h3 : apply_solar d2 data.solar with ⟨d3, b3⟩
      rw [h3] at p3
      cases b3
      · simp only [update_from_dict, h1, h2, h3] at h ⊢
        exact ⟨p3.1.trans (p2.1.trans p1.1),
          p3.2.1.trans (p2.2.1.trans p1.2.1),
          p3.2.2.trans (p2.2.2.trans p1.2.2)⟩
      · have p4 := apply_tank_preserves d3 data.tank
        rcases h4 : apply_tank d3 data.tank with ⟨d4, b4⟩
        rw [h4] at p4
        cases b4
        · simp only [update_from_dict, h1, h2, h3, h4] at h ⊢
          exact ⟨p4.1.trans (p3.1.trans (p2.1.trans p1.1)),
            p4.2.1.trans (p3.2.1.trans (p2.2.1.trans p1.2.1)),
            p4.2.2.trans (p3.2.2.trans (p2.2.2.trans p1.2.2))⟩
        · have p5 := apply_skid_preserves d4 data.skid
          rcases h5 : apply_skid d4 data.skid with ⟨d5, b5⟩
          rw [h5] at p5
          cases b5
          · simp only [update_from_dict, h1, h2, h3, h4, h5] at h ⊢
            exact ⟨p5.1.trans (p4.1.trans (p3.1.trans (p2.1.trans p1.1))),
              p5.2.1.trans (p4.2.1.trans (p3.2.1.trans (p2.2.1.trans p1.2.1))),
              p5.2.2.trans
                (p4.2.2.trans (p3.2.2.trans (p2.2.2.trans p1.2.2)))⟩
          · simp only [update_from_dict, h1, h2, h3, h4, h5] at h
            exact absurd h (by decide)

/-- A left fold that only keeps the current element's reading returns
`Option.none` when every reading in the list is `Option.none`; this is
the value the `panel_power` / `battery_ah` loop temporaries hold after
a loop in which every `get_tag` returned `None`. -/
theorem foldl_last_read_none {α : Type} (f : α → Option Rat) :
    ∀ (l : List α), (∀ x ∈ l, f x = Option.none) →
      ∀ (init : Option Rat), init = Option.none →
        l.foldl (fun _ c => f c) init = Option.none := by
  intro l
  induction l with
  | nil => intro _ init hi; simpa using hi
  | cons a t ih =>
    intro h init _
    simp only [List.foldl_cons]
    exact ih (fun x hx => h x (List.mem_cons_of_mem a hx)) (f a)
      (h a (List.mem_cons_self a t))

/-- When every pool member's reading of a metric is missing, the
aggregation block leaves all four solar fields unset. -/
theorem solar_aggregate_all_missing (has_solar : Bool)
    (rs : List SolarReadings)
    (h1 : rs.filterMap SolarReadings.b_voltage = [])
    (h2 : rs.filterMap SolarReadings.b_percent = [])
    (h3 : rs.filterMap SolarReadings.panel_power = [])
    (h4 : rs.filterMap SolarReadings.remaining_ah = []) :
    solar_aggregate has_solar rs =
      { battery_voltage := Option.none
        battery_percentage := Option.none
        panel_power := Option.none
        battery_ah := Option.none } := by
  cases has_solar
  · rfl
  · have hp := foldl_last_read_none SolarReadings.panel_power rs
      (List.filterMap_eq_nil_iff.mp h3) Option.none rfl
    have ha := foldl_last_read_none SolarReadings.remaining_ah rs
      (List.filterMap_eq_nil_iff.mp h4) Option.none rfl
    simp only [solar_aggregate, h1, h2, h3, h4, hp, ha, List.length_nil,
      ne_eq, not_true_eq_false, if_false, if_true]

/-- A deployment with both pumps and all optional apps configured. -/
def sampleCfg : AppCfg :=
  { has_pump2 := true
    has_solar := true
    has_tank := true
    has_flow := true
    has_pressure := true }

/-- An application state with both selectors in local mode and the
valve last confirmed closed. -/
def sampleAppState : AppState :=
  { selector_state := 3
    valve_control_state := 1
    pump_1_state := Option.none
    pump_2_state := Option.none }

/-- A tick in which every tag read returns `None` except the selector
senses and a confirming valve read of `0`. -/
def sampleTickRead : TickInputs :=
  { p1_slt_state := 6
    p2_slt_state := 6
    p1_target_rate := Option.none
    p1_flow_rate := Option.none
    p1_state_string := Option.none
    p2_target_rate := Option.none
    p2_flow_rate := Option.none
    p2_state_string := Option.none
    valv_ctrl_state := Option.some 0
    p1_app_state := Option.some "auto"
    p2_app_state := Option.some "auto"
    solar_readings := []
    level_reading := Option.none
    level_filled_percentage := Option.none
    flow_value := Option.none
    pressure_value := Option.none }

/-- A tick in which the valve read also returns `None` and the single
solar controller answers none of its four tags. -/
def sampleTickMissing : TickInputs :=
  { sampleTickRead with
    valv_ctrl_state := Option.none
    solar_readings :=
      [{ b_voltage := Option.none
         b_percent := Option.none
         panel_power := Option.none
         remaining_ah := Option.none }] }

/-- A tick whose two solar controllers answer only their
`remaining_ah` tags, with 50 and 70. -/
def sampleTickAh : TickInputs :=
  { sampleTickRead with
    solar_readings :=
      [{ b_voltage := Option.none
         b_percent := Option.none
         panel_power := Option.none
         remaining_ah := Option.some 50 },
       { b_voltage := Option.none
         b_percent := Option.none
         panel_power := Option.none
         remaining_ah := Option.some 70 }] }

/-- C1: the claim says the aggregated `battery_ah` placed in the
partial update is the sum of the collected `remaining_ah` readings,
so readings `[50, 70]` should yield `120`.  The code divides the sum
by the count (application.py line 256), contradicting its own
aggregation comment on line 246; at readings `[50, 70]` the partial
carries `battery_ah = 60`, not `120`. -/
theorem battery_ah_at_readings_50_70 :
    entry_of (update_dashboard_data sampleCfg sampleAppState sampleTickAh).2.solar
        SolarUpdate.battery_ah = Entry.val 60
      ∧ Entry.val (60 : Rat) ≠ Entry.val (120 : Rat) := by
  have hagg : solar_aggregate sampleCfg.has_solar sampleTickAh.solar_readings =
      { battery_voltage := Option.none
        battery_percentage := Option.none
        panel_power := Option.none
        battery_ah := Option.some 60 } := by
    simp only [sampleCfg, sampleTickAh, sampleTickRead, solar_aggregate,
      List.filterMap, SolarReadings.b_voltage, SolarReadings.b_percent,
      SolarReadings.panel_power, SolarReadings.remaining_ah, List.foldl,
      List.length, List.sum_cons, List.sum_nil]
    norm_num
  constructor
  · have hs : (update_dashboard_data sampleCfg sampleAppState sampleTickAh).2.solar =
        (if (solar_aggregate sampleCfg.has_solar sampleTickAh.solar_readings).isEmptyDict
          then Option.none
          else Option.some (solar_data_dict
            (solar_aggregate sampleCfg.has_solar sampleTickAh.solar_readings))) := rfl
    rw [hs, hagg]
    rfl
  · intro hcontra
    have h60 : (60 : Rat) = 120 := by injection hcontra
    norm_num at h60

/-- C2: the claim asserts that both selector derivations use strict
`< 5` on each branch and in particular map `(5.0, 4.9)` to `2` and
`(5.0, 5.0)` to `0`.  On the code, the startup derivation maps
`(5.0, 4.9)` to `1`, and the per-tick derivation (whose first branch
compares with `<= 5`) maps `(5.0, 4.9)` and `(5.0, 5.0)` to `3`. -/
theorem selector_boundary_counterexample :
    setup_selector_state 5 (49/10) = 1
      ∧ tick_selector_state 5 (49/10) = 3
      ∧ tick_selector_state 5 5 = 3
      ∧ setup_selector_state 5 (49/10) ≠ 2
      ∧ tick_selector_state 5 5 ≠ 0 := by
  norm_num [setup_selector_state, tick_selector_state]

/-- C2 (amended): the startup derivation returns 3 iff both readings
are strictly below 5, 2 iff `p1 < 5 ≤ p2`, 1 iff `5 ≤ p1` and
`p2 < 5`, and 0 iff both are at least 5; the per-tick derivation
returns 3 iff both readings are at most 5 (so `(5.0, 4.9)` and
`(5.0, 5.0)` give 3), 2 iff `p1 < 5 < p2`, 1 iff `p2 < 5 < p1`, and
0 in the remaining cases. -/
theorem selector_state_characterization (p1 p2 : Rat) :
    (setup_selector_state p1 p2 = 3 ↔ p1 < 5 ∧ p2 < 5)
      ∧ (setup_selector_state p1 p2 = 2 ↔ p1 < 5 ∧ 5 ≤ p2)
      ∧ (setup_selector_state p1 p2 = 1 ↔ 5 ≤ p1 ∧ p2 < 5)
      ∧ (setup_selector_state p1 p2 = 0 ↔ 5 ≤ p1 ∧ 5 ≤ p2)
      ∧ (tick_selector_state p1 p2 = 3 ↔ p1 ≤ 5 ∧ p2 ≤ 5)
      ∧ (tick_selector_state p1 p2 = 2 ↔ p1 < 5 ∧ 5 < p2)
      ∧ (tick_selector_state p1 p2 = 1 ↔ 5 < p1 ∧ p2 < 5)
      ∧ (tick_selector_state p1 p2 = 0 ↔
          (5 ≤ p1 ∧ 5 < p2) ∨ (5 < p1 ∧ 5 ≤ p2)) := by
  unfold setup_selector_state tick_selector_state
  rcases lt_trichotomy p1 5 with h1 | h1 | h1 <;>
    rcases lt_trichotomy p2 5 with h2 | h2 | h2
  · simp [h1, h2, le_of_lt h1, le_of_lt h2, not_le.mpr h1, not_le.mpr h2,
      lt_asymm h1, lt_asymm h2]
  · subst h2
    simp [h1, le_of_lt h1, not_le.mpr h1, lt_asymm h1, lt_irrefl, le_refl]
  · simp [h1, h2, le_of_lt h1, le_of_lt h2, not_le.mpr h1, not_le.mpr h2,
      lt_asymm h1, lt_asymm h2]
  · subst h1
    simp [h2, le_of_lt h2, not_le.mpr h2, lt_asymm h2, lt_irrefl, le_refl]
  · subst h1; subst h2
    simp [lt_irrefl, le_refl]
  · subst h1
    simp [h2, le_of_lt h2, not_le.mpr h2, lt_asymm h2, lt_irrefl, le_refl]
  · simp [h1, h2, le_of_lt h1, le_of_lt h2, not_le.mpr h1, not_le.mpr h2,
      lt_asymm h1, lt_asymm h2]
  · subst h2
    simp [h1, le_of_lt h1, not_le.mpr h1, lt_asymm h1, lt_irrefl, le_refl]
  · simp [h1, h2, le_of_lt h1, le_of_lt h2, not_le.mpr h1, not_le.mpr h2,
      lt_asymm h1, lt_asymm h2]

/-- Instantiation of the selector characterization at the boundary
reading pair `(5, 5)`: the per-tick derivation reports 3. -/
theorem selector_state_characterization_witness :
    tick_selector_state 5 5 = 3 :=
  ((selector_state_characterization 5 5).2.2.2.2.1).mpr
    ⟨le_refl 5, le_refl 5⟩

/-- C3: the claim says no code path other than the merge writes any
snapshot field.  The `set_pump_state` socket handler (dashboard.py
lines 221-234) writes `pump_state` (and `timestamp`) on the container
directly: on a fresh dashboard with one client, the event with
payload state `"auto"` changes `pump_state` from `"standby"` to
`"auto"` without any merge. -/
theorem snapshot_nonmerge_mutation_counterexample :
    (handle_event
        { data := DashboardData.init 0, connected_clients := [7] }
        (Event.set_pump_state (Option.some "auto")) 5).1.data.pump_state = "auto"
      ∧ (DashboardData.init 0).pump_state = "standby"
      ∧ ("auto" : String) ≠ "standby" := by
  refine ⟨rfl, rfl, ?_⟩
  decide

/-- C3 (amended): the snapshot container is written by exactly three
inbound paths — the merge (`update_data` applying
`update_from_dict`), the `set_pump_state` socket handler (which
writes only `pump_state` and `timestamp`), and the background
heartbeat iteration (which writes only `timestamp`); connect,
disconnect and data-request events leave every snapshot field
unchanged, as does a `set_pump_state` event whose payload has no
`"state"` key. -/
theorem snapshot_mutation_paths (s : DashState) (sid now : Nat)
    (st : String) (kwargs : UpdateData) :
    (handle_event s (Event.connect sid) now).1.data = s.data
      ∧ (handle_event s (Event.disconnect sid) now).1.data = s.data
      ∧ (handle_event s (Event.request_data sid) now).1.data = s.data
      ∧ (handle_event s (Event.set_pump_state Option.none) now).1.data = s.data
      ∧ (handle_event s (Event.set_pump_state (Option.some st)) now).1.data
          = { s.data with pump_state := st, timestamp := now }
      ∧ (handle_event s Event.heartbeat now).1.data
          = { s.data with timestamp := now }
      ∧ (handle_event s (Event.merge kwargs) now).1.data
          = (if kwargs.nonempty then (update_from_dict s.data kwargs now).1
             else s.data) := by
  refine ⟨rfl, rfl, rfl, rfl, rfl, rfl, ?_⟩
  simp only [handle_event, update_data]
  split
  case isTrue h' =>
    rcases hu : update_from_dict s.data kwargs now with ⟨d2, b⟩
    cases b <;> rfl
  case isFalse h' => rfl

/-- C4: on a start or stop button edge with the selector state equal
to 3 and neither peer `AppState` equal to `"calibration"`, the
callbacks write 0 (start) or 1 (stop) to the valve output; with the
selector state 3 and a peer in `"calibration"`, they write nothing
and request the advisory popup; with any other selector state they do
nothing and raise no advisory. -/
theorem valve_interlock_edges (sel : Nat) (p1 p2 : Option String) :
    (sel = 3 → p1 ≠ Option.some "calibration" → p2 ≠ Option.some "calibration" →
        start_btn_callback sel p1 p2 = EdgeAction.write 0
          ∧ stop_btn_callback sel p1 p2 = EdgeAction.write 1)
      ∧ (sel = 3 →
          (p1 = Option.some "calibration" ∨ p2 = Option.some "calibration") →
          start_btn_callback sel p1 p2 = EdgeAction.popup
            ∧ stop_btn_callback sel p1 p2 = EdgeAction.popup)
      ∧ (sel ≠ 3 →
          start_btn_callback sel p1 p2 = EdgeAction.nothing
            ∧ stop_btn_callback sel p1 p2 = EdgeAction.nothing) := by
  refine ⟨?_, ?_, ?_⟩
  · intro hsel h1 h2
    subst hsel
    constructor <;> simp [start_btn_callback, stop_btn_callback, h1, h2]
  · intro hsel hcal
    subst hsel
    constructor <;> simp [start_btn_callback, stop_btn_callback, hcal]
  · intro hsel
    constructor <;> simp [start_btn_callback, stop_btn_callback, hsel]

/-- Instantiation of the interlock behaviour: with both peers in
`"auto"` the start edge writes 0. -/
theorem valve_interlock_edges_witness :
    start_btn_callback 3 (Option.some "auto") (Option.some "auto")
      = EdgeAction.write 0 :=
  ((valve_interlock_edges 3 (Option.some "auto") (Option.some "auto")).1
    rfl (by decide) (by decide)).1

/-- C5: the claim says a successful valve write is immediately
followed, still inside the edge handler, by a re-read of the physical
output stored as the new valve state.  The handler bodies
(application.py lines 60-82) only call `set_do` and assign no
attribute: starting with a last-confirmed valve state of 1 and both
peers in `"auto"`, the start edge drives the physical output to 0
while the stored `valve_control_state` is still 1 when the handler
returns. -/
theorem valve_confirm_in_handler_counterexample :
    (apply_edge_action
        { selector_state := 3
          valve_control_state := 1
          pump_1_state := Option.none
          pump_2_state := Option.none } 1
        (start_btn_callback 3 (Option.some "auto")
          (Option.some "auto"))).1.valve_control_state = 1
      ∧ (apply_edge_action
          { selector_state := 3
            valve_control_state := 1
            pump_1_state := Option.none
            pump_2_state := Option.none } 1
          (start_btn_callback 3 (Option.some "auto")
            (Option.some "auto"))).2 = 0
      ∧ (1 : Nat) ≠ 0 := by
  refine ⟨?_, ?_, by decide⟩ <;> decide

/-- C5 (amended): the button-edge handlers themselves never update
the stored valve state — whatever action they take, the application
state they leave behind is the one they started with; the confirming
read happens on the next periodic tick, whose `get_do` result, when
present, becomes the new `valve_control_state` before the partial
update is built. -/
theorem valve_confirm_on_next_tick (st : AppState) (phys : Nat)
    (p1 p2 : Option String) (cfg : AppCfg) (inp : TickInputs) (v : Nat) :
    (apply_edge_action st phys
        (start_btn_callback st.selector_state p1 p2)).1 = st
      ∧ (apply_edge_action st phys
          (stop_btn_callback st.selector_state p1 p2)).1 = st
      ∧ (inp.valv_ctrl_state = Option.some v →
          (update_dashboard_data cfg st inp).1.valve_control_state = v
            ∧ (update_dashboard_data cfg st inp).2.valve = Option.some v) := by
  refine ⟨?_, ?_, ?_⟩
  · cases start_btn_callback st.selector_state p1 p2 <;> rfl
  · cases stop_btn_callback st.selector_state p1 p2 <;> rfl
  · intro hv
    have h1 : (update_dashboard_data cfg st inp).1.valve_control_state
        = inp.valv_ctrl_state.getD st.valve_control_state := rfl
    have h2 : (update_dashboard_data cfg st inp).2.valve
        = Option.some (inp.valv_ctrl_state.getD st.valve_control_state) := rfl
    rw [h1, h2, hv]
    exact ⟨rfl, rfl⟩

/-- Instantiation of the tick-side confirmation: a confirming read of
0 is stored as the new valve state and placed in the partial. -/
theorem valve_confirm_on_next_tick_witness :
    (update_dashboard_data sampleCfg sampleAppState sampleTickRead).1.valve_control_state = 0
      ∧ (update_dashboard_data sampleCfg sampleAppState sampleTickRead).2.valve
          = Option.some 0 :=
  (valve_confirm_on_next_tick sampleAppState 1 Option.none Option.none
    sampleCfg sampleTickRead 0).2.2 rfl

/-- A partial update touching only the pump section, with only the
`target_rate` key present. -/
def samplePumpKwargs : UpdateData :=
  { UpdateData.empty with
    pump := Option.some
      { target_rate := Entry.val 1
        flow_rate := Entry.absent
        pump_state := Entry.absent } }

/-- A pump section whose `target_rate` key is present but holds
Python `None` — exactly what the tick produces whenever the
`TargetRate` tag read returns `None`. -/
def nonePumpKwargs : UpdateData :=
  { UpdateData.empty with
    pump := Option.some
      { target_rate := Entry.pynone
        flow_rate := Entry.absent
        pump_state := Entry.absent } }

/-- C6: the claim says every merge of a partial update bumps the
timestamp and broadcasts the full resulting snapshot to every
connected subscriber.  A partial whose `pump.target_rate` key holds
`None` makes `float(None)` raise inside `update_from_dict`;
`update_data` swallows the `TypeError`, so on a fresh dashboard with
one connected client the merge at time 5 emits nothing and leaves the
timestamp at 0. -/
theorem merge_error_counterexample :
    nonePumpKwargs.nonempty = true
      ∧ (update_data { data := DashboardData.init 0, connected_clients := [7] }
          nonePumpKwargs 5).2 = []
      ∧ (update_data { data := DashboardData.init 0, connected_clients := [7] }
          nonePumpKwargs 5).1.data.timestamp = 0
      ∧ (0 : Nat) ≠ 5 := by
  refine ⟨rfl, rfl, rfl, by decide⟩

/-- C6 (amended): merging a non-empty partial update none of whose
numeric keys is present with `None` runs `update_from_dict` to
completion; every field whose key is absent from the partial (either
because its section is absent or because the key is missing inside a
present section) keeps its previous value, the timestamp is refreshed
to the merge time, and the full resulting snapshot is emitted to
every currently connected client.  A merge whose partial does hold
such a `None` is aborted at the offending key by a swallowed
`TypeError`: the assignments already made persist, the timestamp is
not refreshed, and nothing is broadcast. -/
theorem merge_frame_and_broadcast (s : DashState) (kwargs : UpdateData)
    (now : Nat) (h : kwargs.nonempty = true)
    (hok : kwargs.float_ok = true) :
    (update_from_dict s.data kwargs now).2 = true
      ∧ (update_data s kwargs now).1.data
          = (update_from_dict s.data kwargs now).1
      ∧ (update_from_dict s.data kwargs now).1.timestamp = now
      ∧ (entry_of kwargs.pump PumpUpdate.target_rate = Entry.absent →
          (update_from_dict s.data kwargs now).1.target_rate
            = s.data.target_rate)
      ∧ (entry_of kwargs.pump PumpUpdate.flow_rate = Entry.absent →
          (update_from_dict s.data kwargs now).1.flow_rate = s.data.flow_rate)
      ∧ (entry_of kwargs.pump PumpUpdate.pump_state = Entry.absent →
          (update_from_dict s.data kwargs now).1.pump_state
            = s.data.pump_state)
      ∧ (entry_of kwargs.pump2 PumpUpdate.target_rate = Entry.absent →
          (update_from_dict s.data kwargs now).1.pump2_target_rate
            = s.data.pump2_target_rate)
      ∧ (entry_of kwargs.pump2 PumpUpdate.flow_rate = Entry.absent →
          (update_from_dict s.data kwargs now).1.pump2_flow_rate
            = s.data.pump2_flow_rate)
      ∧ (entry_of kwargs.pump2 PumpUpdate.pump_state = Entry.absent →
          (update_from_dict s.data kwargs now).1.pump2_pump_state
            = s.data.pump2_pump_state)
      ∧ (entry_of kwargs.solar SolarUpdate.battery_voltage = Entry.absent →
          (update_from_dict s.data kwargs now).1.battery_voltage
            = s.data.battery_voltage)
      ∧ (entry_of kwargs.solar SolarUpdate.battery_percentage = Entry.absent →
          (update_from_dict s.data kwargs now).1.battery_percentage
            = s.data.battery_percentage)
      ∧ (entry_of kwargs.solar SolarUpdate.panel_power = Entry.absent →
          (update_from_dict s.data kwargs now).1.panel_power
            = s.data.panel_power)
      ∧ (entry_of kwargs.solar SolarUpdate.battery_ah = Entry.absent →
          (update_from_dict s.data kwargs now).1.battery_ah
            = s.data.battery_ah)
      ∧ (entry_of kwargs.tank TankUpdate.tank_level_mm = Entry.absent →
          (update_from_dict s.data kwargs now).1.tank_level_mm
            = s.data.tank_level_mm)
      ∧ (entry_of kwargs.tank TankUpdate.tank_level_percent = Entry.absent →
          (update_from_dict s.data kwargs now).1.tank_level_percent
            = s.data.tank_level_percent)
      ∧ (entry_of kwargs.skid SkidUpdate.skid_flow = Entry.absent →
          (update_from_dict s.data kwargs now).1.skid_flow = s.data.skid_flow)
      ∧ (entry_of kwargs.skid SkidUpdate.skid_pressure = Entry.absent →
          (update_from_dict s.data kwargs now).1.skid_pressure
            = s.data.skid_pressure)
      ∧ (entry_of kwargs.system SystemUpdate.status = Entry.absent →
          (update_from_dict s.data kwargs now).1.system_status
            = s.data.system_status)
      ∧ (kwargs.faults.bind FaultsUpdate.hh_pressure = Option.none →
          (update_from_dict s.data kwargs now).1.hh_pressure
            = s.data.hh_pressure)
      ∧ (kwargs.faults.bind FaultsUpdate.ll_tank_level = Option.none →
          (update_from_dict s.data kwargs now).1.ll_tank_level
            = s.data.ll_tank_level)
      ∧ (∀ c ∈ s.connected_clients,
          (c, (update_from_dict s.data kwargs now).1)
            ∈ (update_data s kwargs now).2)
      ∧ (∀ u2 : UpdateData, (update_from_dict s.data u2 now).2 = false →
          (update_data s u2 now).2 = []
            ∧ (update_data s u2 now).1.data.timestamp = s.data.timestamp) := by
  have He := update_from_dict_ok_eq s.data kwargs now hok
  refine ⟨?_, ?_, ?_, ?_, ?_, ?_, ?_, ?_, ?_, ?_, ?_, ?_, ?_, ?_, ?_, ?_,
    ?_, ?_, ?_, ?_, ?_, ?_⟩
  · rw [He]
  · simp only [update_data]
    rw [if_pos h, He]
  · rw [He]
  · intro hf; rw [He]; simp [hf, Entry.getD]
  · intro hf; rw [He]; simp [hf, Entry.getD]
  · intro hf; rw [He]; simp [hf, str_field]
  · intro hf; rw [He]; simp [hf, Entry.getD]
  · intro hf; rw [He]; simp [hf, Entry.getD]
  · intro hf; rw [He]; simp [hf, str_field]
  · intro hf; rw [He]; simp [hf, Entry.getD]
  · intro hf; rw [He]; simp [hf, Entry.getD]
  · intro hf; rw [He]; simp [hf, Entry.getD]
  · intro hf; rw [He]; simp [hf, Entry.getD]
  · intro hf; rw [He]; simp [hf, Entry.getD]
  · intro hf; rw [He]; simp [hf, Entry.getD]
  · intro hf; rw [He]; simp [hf, Entry.getD]
  · intro hf; rw [He]; simp [hf, Entry.getD]
  · intro hf; rw [He]; simp [hf, str_field]
  · intro hf; rw [He]; simp [hf]
  · intro hf; rw [He]; simp [hf]
  · intro c hc
    have hb : (update_data s kwargs now).2
        = broadcast_update
            { s with data := (update_from_dict s.data kwargs now).1 } := by
      simp only [update_data]
      rw [if_pos h, He]
    rw [hb]
    show (c, (update_from_dict s.data kwargs now).1)
      ∈ (if s.connected_clients.isEmpty then []
         else s.connected_clients.map
           (fun x => (x, (update_from_dict s.data kwargs now).1)))
    cases hl : s.connected_clients with
    | nil => rw [hl] at hc; cases hc
    | cons a t =>
      rw [hl] at hc
      simp only [List.isEmpty_cons, Bool.false_eq_true, if_false]
      exact List.mem_map_of_mem _ hc
  · intro u2 hf2
    have hp := update_from_dict_fail_preserves s.data u2 now hf2
    cases hk2 : u2.nonempty
    · exact ⟨by simp [update_data, hk2], by simp [update_data, hk2]⟩
    · rcases hu : update_from_dict s.data u2 now with ⟨dd, bb⟩
      rw [hu] at hf2 hp
      cases bb
      · constructor
        · simp [update_data, hk2, hu]
        · have hts : dd.timestamp = s.data.timestamp := hp.1
          simpa [update_data, hk2, hu] using hts
      · simp at hf2

/-- Instantiation of the merge contract on a pump-only partial. -/
theorem merge_frame_and_broadcast_witness :
    (update_data { data := DashboardData.init 0, connected_clients := [7] }
        samplePumpKwargs 5).1.data
      = (update_from_dict (DashboardData.init 0) samplePumpKwargs 5).1 :=
  (merge_frame_and_broadcast
    { data := DashboardData.init 0, connected_clients := [7] }
    samplePumpKwargs 5 rfl rfl).2.1

/-- An all-missing `b_voltage` pool leaves `battery_voltage` unset. -/
theorem solar_aggregate_voltage_missing (has_solar : Bool)
    (rs : List SolarReadings)
    (h : rs.filterMap SolarReadings.b_voltage = []) :
    (solar_aggregate has_solar rs).battery_voltage = Option.none := by
  cases has_solar
  · rfl
  · simp [solar_aggregate, h]

/-- An all-missing `b_percent` pool leaves `battery_percentage` unset. -/
theorem solar_aggregate_percent_missing (has_solar : Bool)
    (rs : List SolarReadings)
    (h : rs.filterMap SolarReadings.b_percent = []) :
    (solar_aggregate has_solar rs).battery_percentage = Option.none := by
  cases has_solar
  · rfl
  · simp [solar_aggregate, h]

/-- An all-missing `panel_power` pool leaves `panel_power` unset: the
loop temporary also ends holding `None`. -/
theorem solar_aggregate_panel_missing (has_solar : Bool)
    (rs : List SolarReadings)
    (h : rs.filterMap SolarReadings.panel_power = []) :
    (solar_aggregate has_solar rs).panel_power = Option.none := by
  cases has_solar
  · rfl
  · have hlast := foldl_last_read_none SolarReadings.panel_power rs
      (List.filterMap_eq_nil_iff.mp h) Option.none rfl
    simp [solar_aggregate, h, hlast]

/-- An all-missing `remaining_ah` pool leaves `battery_ah` unset. -/
theorem solar_aggregate_ah_missing (has_solar : Bool)
    (rs : List SolarReadings)
    (h : rs.filterMap SolarReadings.remaining_ah = []) :
    (solar_aggregate has_solar rs).battery_ah = Option.none := by
  cases has_solar
  · rfl
  · have hlast := foldl_last_read_none SolarReadings.remaining_ah rs
      (List.filterMap_eq_nil_iff.mp h) Option.none rfl
    simp [solar_aggregate, h, hlast]

/-- C7: a tick in which all four solar metric pools collect no
readings omits the `solar` section from the partial update entirely,
and each individual solar field whose pool collected nothing is
absent from the partial whether or not the section itself survives. -/
theorem solar_empty_pool_omitted (cfg : AppCfg) (st : AppState)
    (inp : TickInputs) :
    (inp.solar_readings.filterMap SolarReadings.b_voltage = [] →
      inp.solar_readings.filterMap SolarReadings.b_percent = [] →
      inp.solar_readings.filterMap SolarReadings.panel_power = [] →
      inp.solar_readings.filterMap SolarReadings.remaining_ah = [] →
      (update_dashboard_data cfg st inp).2.solar = Option.none)
      ∧ (inp.solar_readings.filterMap SolarReadings.b_voltage = [] →
          entry_of (update_dashboard_data cfg st inp).2.solar
            SolarUpdate.battery_voltage = Entry.absent)
      ∧ (inp.solar_readings.filterMap SolarReadings.b_percent = [] →
          entry_of (update_dashboard_data cfg st inp).2.solar
            SolarUpdate.battery_percentage = Entry.absent)
      ∧ (inp.solar_readings.filterMap SolarReadings.panel_power = [] →
          entry_of (update_dashboard_data cfg st inp).2.solar
            SolarUpdate.panel_power = Entry.absent)
      ∧ (inp.solar_readings.filterMap SolarReadings.remaining_ah = [] →
          entry_of (update_dashboard_data cfg st inp).2.solar
            SolarUpdate.battery_ah = Entry.absent) := by
  have hs : (update_dashboard_data cfg st inp).2.solar
      = (if (solar_aggregate cfg.has_solar inp.solar_readings).isEmptyDict
          then Option.none
          else Option.some (solar_data_dict
            (solar_aggregate cfg.has_solar inp.solar_readings))) := rfl
  refine ⟨?_, ?_, ?_, ?_, ?_⟩
  · intro h1 h2 h3 h4
    rw [hs, solar_aggregate_all_missing cfg.has_solar inp.solar_readings h1 h2 h3 h4]
    rfl
  · intro h1
    have hv := solar_aggregate_voltage_missing cfg.has_solar inp.solar_readings h1
    rw [hs]
    split
    · rfl
    · simp [entry_of, solar_data_dict, opt_entry, hv]
  · intro h2
    have hv := solar_aggregate_percent_missing cfg.has_solar inp.solar_readings h2
    rw [hs]
    split
    · rfl
    · simp [entry_of, solar_data_dict, opt_entry, hv]
  · intro h3
    have hv := solar_aggregate_panel_missing cfg.has_solar inp.solar_readings h3
    rw [hs]
    split
    · rfl
    · simp [entry_of, solar_data_dict, opt_entry, hv]
  · intro h4
    have hv := solar_aggregate_ah_missing cfg.has_solar inp.solar_readings h4
    rw [hs]
    split
    · rfl
    · simp [entry_of, solar_data_dict, opt_entry, hv]

/-- Instantiation of the solar omission policy: one configured solar
controller answering none of its tags yields no `solar` section. -/
theorem solar_empty_pool_omitted_witness :
    (update_dashboard_data sampleCfg sampleAppState sampleTickMissing).2.solar
      = Option.none :=
  (solar_empty_pool_omitted sampleCfg sampleAppState sampleTickMissing).1
    rfl rfl rfl rfl

/-- A tick whose first pump controller reports the low-low tank
fault state. -/
def sampleTickFault : TickInputs :=
  { sampleTickRead with
    p1_app_state := Option.some "tank_level_low_low_level" }

/-- C8: the fault flags placed in every tick's partial update are a
pure function of the two freshly read `AppState` strings —
`ll_tank_level` is true exactly when either string is
`"tank_level_low_low_level"`, `hh_pressure` exactly when either is
`"pressure_high_high_level"` — and they are independent of the
previous application state, so a fault clears on the first tick on
which the underlying state string has changed. -/
theorem fault_flags_recomputed (cfg : AppCfg) (st st2 : AppState)
    (inp : TickInputs) :
    (((update_dashboard_data cfg st inp).2.faults.bind
          FaultsUpdate.ll_tank_level) = Option.some (PyValue.bool true)
        ↔ (inp.p1_app_state = Option.some "tank_level_low_low_level"
            ∨ inp.p2_app_state = Option.some "tank_level_low_low_level"))
      ∧ (((update_dashboard_data cfg st inp).2.faults.bind
            FaultsUpdate.ll_tank_level) = Option.some (PyValue.bool false)
          ↔ ¬(inp.p1_app_state = Option.some "tank_level_low_low_level"
              ∨ inp.p2_app_state = Option.some "tank_level_low_low_level"))
      ∧ (((update_dashboard_data cfg st inp).2.faults.bind
            FaultsUpdate.hh_pressure) = Option.some (PyValue.bool true)
          ↔ (inp.p1_app_state = Option.some "pressure_high_high_level"
              ∨ inp.p2_app_state = Option.some "pressure_high_high_level"))
      ∧ (((update_dashboard_data cfg st inp).2.faults.bind
            FaultsUpdate.hh_pressure) = Option.some (PyValue.bool false)
          ↔ ¬(inp.p1_app_state = Option.some "pressure_high_high_level"
              ∨ inp.p2_app_state = Option.some "pressure_high_high_level"))
      ∧ (update_dashboard_data cfg st inp).2.faults
          = (update_dashboard_data cfg st2 inp).2.faults := by
  have hf : (update_dashboard_data cfg st inp).2.faults
      = Option.some
          { hh_pressure := Option.some (PyValue.bool
              (decide (inp.p1_app_state = Option.some "pressure_high_high_level"
                ∨ inp.p2_app_state = Option.some "pressure_high_high_level")))
            ll_tank_level := Option.some (PyValue.bool
              (decide (inp.p1_app_state = Option.some "tank_level_low_low_level"
                ∨ inp.p2_app_state = Option.some "tank_level_low_low_level"))) } := rfl
  refine ⟨?_, ?_, ?_, ?_, rfl⟩ <;>
    rw [hf] <;>
    simp [decide_eq_true_iff, decide_eq_false_iff_not]

/-- Instantiation of the fault evaluation: pump 1 reporting the
low-low tank state raises the flag in that tick's partial. -/
theorem fault_flags_recomputed_witness :
    ((update_dashboard_data sampleCfg sampleAppState sampleTickFault).2.faults.bind
        FaultsUpdate.ll_tank_level) = Option.some (PyValue.bool true) :=
  (fault_flags_recomputed sampleCfg sampleAppState sampleAppState
    sampleTickFault).1.mpr (Or.inl rfl)

/-- C9: when the per-tick valve output read returns `None`, the
stored `valve_control_state` keeps its last confirmed value and the
`valve` section of the partial update carries exactly that value. -/
theorem valve_missing_read_retained (cfg : AppCfg) (st : AppState)
    (inp : TickInputs) (h : inp.valv_ctrl_state = Option.none) :
    (update_dashboard_data cfg st inp).1.valve_control_state
        = st.valve_control_state
      ∧ (update_dashboard_data cfg st inp).2.valve
          = Option.some st.valve_control_state := by
  have h1 : (update_dashboard_data cfg st inp).1.valve_control_state
      = inp.valv_ctrl_state.getD st.valve_control_state := rfl
  have h2 : (update_dashboard_data cfg st inp).2.valve
      = Option.some (inp.valv_ctrl_state.getD st.valve_control_state) := rfl
  rw [h1, h2, h]
  exact ⟨rfl, rfl⟩

/-- Instantiation of the missing-valve-read policy: with the last
confirmed value 1 and a `None` read, the tick keeps and publishes 1. -/
theorem valve_missing_read_retained_witness :
    (update_dashboard_data sampleCfg sampleAppState sampleTickMissing).1.valve_control_state = 1
      ∧ (update_dashboard_data sampleCfg sampleAppState sampleTickMissing).2.valve
          = Option.some 1 :=
  valve_missing_read_retained sampleCfg sampleAppState sampleTickMissing rfl

/-- The faults sub-dictionary used to exercise the merge coercion. -/
def sampleFaults : FaultsUpdate :=
  { hh_pressure := Option.some (PyValue.str " True ")
    ll_tank_level := Option.some PyValue.other }

/-- A partial update touching only the faults section. -/
def sampleFaultsKwargs : UpdateData :=
  { UpdateData.empty with faults := Option.some sampleFaults }

/-- A partial whose `pump.target_rate` key holds `None` and whose
faults section asks to set `hh_pressure` to `True`. -/
def noneThenFaultsKwargs : UpdateData :=
  { UpdateData.empty with
    pump := Option.some
      { target_rate := Entry.pynone
        flow_rate := Entry.absent
        pump_state := Entry.absent }
    faults := Option.some
      { hh_pressure := Option.some (PyValue.bool true)
        ll_tank_level := Option.none } }

/-- C10: the claim says every merge carrying a faults section coerces
each present fault value.  The faults block is the last section of
`update_from_dict`, so a `TypeError` from an earlier numeric key —
here `pump.target_rate` holding `None` — aborts the merge before the
faults block runs: the boolean `True` carried for `hh_pressure` is
not applied and the stored flag stays `false`. -/
theorem faults_skipped_counterexample :
    noneThenFaultsKwargs.faults
        = Option.some
            { hh_pressure := Option.some (PyValue.bool true)
              ll_tank_level := Option.none }
      ∧ (update_from_dict (DashboardData.init 0)
          noneThenFaultsKwargs 5).1.hh_pressure = false
      ∧ false ≠ true := by
  refine ⟨rfl, rfl, by decide⟩

/-- C10 (amended): a merge carrying a faults section that is actually
reached — no numeric key earlier in the partial is present with
`None`, so no `float(...)` raises before the faults block — coerces
each present fault value with the `_to_bool` table: booleans pass
through, numbers map to `value != 0`, a string maps to membership of
its trimmed lowercase form in `\x7b"true", "1", "yes", "on"\x7d`, and a
value of any other type leaves the previously stored flag unchanged.
A merge aborted by such a `TypeError` leaves both stored fault flags
unchanged, whatever its faults section carries. -/
theorem faults_coercion_on_merge (d : DashboardData) (kwargs : UpdateData)
    (fu : FaultsUpdate) (now : Nat) (hf : kwargs.faults = Option.some fu)
    (hok : kwargs.float_ok = true) :
    ((∀ b, fu.hh_pressure = Option.some (PyValue.bool b) →
          (update_from_dict d kwargs now).1.hh_pressure = b)
        ∧ (∀ n, fu.hh_pressure = Option.some (PyValue.int n) →
            (update_from_dict d kwargs now).1.hh_pressure = (n != 0))
        ∧ (∀ q, fu.hh_pressure = Option.some (PyValue.float q) →
            (update_from_dict d kwargs now).1.hh_pressure = (q != 0))
        ∧ (∀ s0, fu.hh_pressure = Option.some (PyValue.str s0) →
            (update_from_dict d kwargs now).1.hh_pressure
              = decide (s0.trim.toLower
                  ∈ (["true", "1", "yes", "on"] : List String)))
        ∧ (fu.hh_pressure = Option.some PyValue.other →
            (update_from_dict d kwargs now).1.hh_pressure = d.hh_pressure))
      ∧ ((∀ b, fu.ll_tank_level = Option.some (PyValue.bool b) →
            (update_from_dict d kwargs now).1.ll_tank_level = b)
        ∧ (∀ n, fu.ll_tank_level = Option.some (PyValue.int n) →
            (update_from_dict d kwargs now).1.ll_tank_level = (n != 0))
        ∧ (∀ q, fu.ll_tank_level = Option.some (PyValue.float q) →
            (update_from_dict d kwargs now).1.ll_tank_level = (q != 0))
        ∧ (∀ s0, fu.ll_tank_level = Option.some (PyValue.str s0) →
            (update_from_dict d kwargs now).1.ll_tank_level
              = decide (s0.trim.toLower
                  ∈ (["true", "1", "yes", "on"] : List String)))
        ∧ (fu.ll_tank_level = Option.some PyValue.other →
            (update_from_dict d kwargs now).1.ll_tank_level
              = d.ll_tank_level))
      ∧ (∀ u2 : UpdateData, (update_from_dict d u2 now).2 = false →
          (update_from_dict d u2 now).1.hh_pressure = d.hh_pressure
            ∧ (update_from_dict d u2 now).1.ll_tank_level
                = d.ll_tank_level) := by
  have He := update_from_dict_ok_eq d kwargs now hok
  refine ⟨?_, ?_, ?_⟩
  · refine ⟨?_, ?_, ?_, ?_, ?_⟩
    · intro b hb; rw [He]; simp [hf, hb, to_bool]
    · intro n hn; rw [He]; simp [hf, hn, to_bool]
    · intro q hq; rw [He]; simp [hf, hq, to_bool]
    · intro s0 hs0; rw [He]; simp [hf, hs0, to_bool]
    · intro ho; rw [He]; simp [hf, ho, to_bool]
  · refine ⟨?_, ?_, ?_, ?_, ?_⟩
    · intro b hb; rw [He]; simp [hf, hb, to_bool]
    · intro n hn; rw [He]; simp [hf, hn, to_bool]
    · intro q hq; rw [He]; simp [hf, hq, to_bool]
    · intro s0 hs0; rw [He]; simp [hf, hs0, to_bool]
    · intro ho; rw [He]; simp [hf, ho, to_bool]
  · intro u2 h2
    have hp := update_from_dict_fail_preserves d u2 now h2
    exact ⟨hp.2.1, hp.2.2⟩

/-- Instantiation of the fault coercion: an unsupported value type
leaves the stored flag unchanged across the merge. -/
theorem faults_coercion_on_merge_witness :
    (update_from_dict (DashboardData.init 0) sampleFaultsKwargs 5).1.ll_tank_level
      = (DashboardData.init 0).ll_tank_level :=
  (faults_coercion_on_merge (DashboardData.init 0) sampleFaultsKwargs
    sampleFaults 5 rfl rfl).2.1.2.2.2.2 rfl
